import Mathlib

/-!
Shallow embedding of `vm-monitor.py` (Azure Spot VM eviction monitor).

The script is a single polling loop. The embedding models:
- `get_azure_metadata` (lines 45-67): instance identity fetch;
- `check_scheduled_events` (lines 69-93): poll the scheduled-events
  endpoint and return the first termination-type event, `none` on any
  caught failure;
- `send_webhook` (lines 95-140): post the webhook, returning a boolean;
  the distinct outcome branches of the code (401, 400, raised HTTP error,
  network exception, 2xx/other) are labelled by `classifySend`;
- the `main` monitoring loop (lines 142-258): identity resolution with
  bounded retries, the per-cycle body (event detection, dedup set,
  heartbeat), and the except-branch error backoff.

External effects (HTTP responses, clock readings, exceptions) enter as
explicit inputs; each Python function becomes a pure Lean function of
those inputs.
-/

namespace SpotMonitor

/-- Python truthiness of an optional string: `None` and `""` are falsy.
Used wherever the script writes `if not x:` on a string-or-None value. -/
def present : Option String → Bool
  | none => false
  | some s => !(s == "")

/-- One entry of the `Events` array of the scheduled-events response
(fields read by the script via `event.get(...)`, each possibly absent). -/
structure ScheduledEvent where
  eventId : Option String
  eventType : Option String
  notBefore : Option String
deriving DecidableEq, Repr

/-- Outcome of the HTTP GET performed by `check_scheduled_events`
(line 73): either a `requests.exceptions.RequestException` (network
error, timeout, or malformed JSON body — all subclasses caught at
line 91), or a JSON body whose `Events` key is absent (`none`) or holds
a list of events. -/
inductive PollResult
  | failure
  | ok (eventsField : Option (List ScheduledEvent))
deriving DecidableEq, Repr

/-- The event types the filter at lines 83-86 keeps. -/
def terminationTypes : List (Option String) :=
  [some "Preempt", some "Terminate", some "Reboot", some "Redeploy"]

/-- Line 85: `event.get("EventType") in ["Preempt", "Terminate", "Reboot", "Redeploy"]`. -/
def isTerminationType (e : ScheduledEvent) : Bool :=
  terminationTypes.contains e.eventType

/-- Lines 69-93, `check_scheduled_events`: on any caught request failure
return `None`; otherwise, if the `Events` key is missing return `None`;
otherwise filter for termination-type events and return the first one
(`termination_events[0]`), or `None` if the filtered list is empty. -/
def check_scheduled_events : PollResult → Option ScheduledEvent
  | .failure => none
  | .ok none => none
  | .ok (some events) => (events.filter isTerminationType).head?

/-- Outcome of the webhook POST at line 117: a raised
`requests.exceptions.RequestException` (network error/timeout), or a
response with a status code and a flag saying whether its body parses
as JSON (the `response.json()` call at line 131). -/
inductive HttpOutcome
  | exn
  | response (status : Nat) (bodyParses : Bool)
deriving DecidableEq, Repr

/-- The outcome classes of `send_webhook`, one per distinct branch of
lines 115-140: 401 (line 119), 400 (line 122), an error status raised by
`raise_for_status` or a request exception (caught at line 138), and the
success return at line 136. -/
inductive SendResult
  | Success
  | AuthFailure
  | BadRequest
  | NetworkFailure
deriving DecidableEq, Repr

/-- `response.raise_for_status()` raises exactly for status codes in
400-599 (4xx client errors and 5xx server errors). -/
def raisesForStatus (s : Nat) : Bool :=
  decide (400 ≤ s) && decide (s < 600)

/-- Status codes in 200-299, used to state spec claims about 2xx. -/
def is2xx (s : Nat) : Bool :=
  decide (200 ≤ s) && decide (s < 300)

/-- The branch of `send_webhook` taken for a given HTTP outcome, in the
order the code tests them: raised exception → caught at line 138;
status 401 → line 119; status 400 → line 122; any 4xx/5xx → raised by
`raise_for_status` (line 126) and caught at line 138; anything else
reaches line 136 and returns success — the body-parse attempt at
lines 130-134 is wrapped in its own `try` and never changes the result. -/
def classifySend : HttpOutcome → SendResult
  | .exn => .NetworkFailure
  | .response s _ =>
    if s = 401 then .AuthFailure
    else if s = 400 then .BadRequest
    else if raisesForStatus s then .NetworkFailure
    else .Success

/-- Lines 95-140, `send_webhook`, as the boolean the script returns:
`False` immediately when the API key is unset or empty (lines 99-101),
otherwise `True` exactly on the success branch. -/
def send_webhook (apiKey : Option String) (out : HttpOutcome) : Bool :=
  if !(present apiKey) then false
  else classifySend out == SendResult.Success

/-- Loop configuration fixed before the loop starts: the effective API
key (line 154-158), `check_interval` (line 165) and `heartbeat_interval`
(line 166). Time values are modelled as integer seconds. -/
structure Config where
  apiKey : Option String
  checkInterval : Nat
  heartbeatInterval : Int
deriving DecidableEq, Repr

/-- The mutable loop state of `main`: `processed_events` (line 204, a
set of `event.get("EventId")` values, so of optional strings),
`consecutive_errors` (line 207) and `last_heartbeat_time` (line 208).
The set is modelled as a duplicate-tolerant list read through `∈`. -/
structure LoopState where
  processedEvents : List (Option String)
  consecutiveErrors : Nat
  lastHeartbeatTime : Int
deriving DecidableEq, Repr

/-- The external inputs one iteration of the `while True` loop consumes:
`time.time()` at line 212, the poll outcome at line 216, and the HTTP
outcomes of the event webhook (line 229) and the heartbeat webhook
(line 242), supplied whether or not that call ends up being made. -/
structure CycleInput where
  currentTime : Int
  poll : PollResult
  eventSend : HttpOutcome
  heartbeatSend : HttpOutcome
deriving DecidableEq, Repr

/-- Result of one iteration: the updated state, the `EventId` the event
webhook call was made for at line 229 (`none` when that call was not
reached), and whether the heartbeat call at line 242 was made. -/
structure CycleOutput where
  state : LoopState
  eventSendAttempted : Option (Option String)
  heartbeatSent : Bool
deriving DecidableEq, Repr

/-- Lines 211-243: the body of one loop iteration along its normal
(no uncaught exception) path. The poll result is consumed by
`check_scheduled_events`; since that function catches its own request
failures, the body then always reaches line 219 and sets
`consecutive_errors = 0`. Line 221 guards the event branch by
`event and event.get("EventId") not in processed_events`; the webhook is
sent at line 229 and only a `True` return adds the id (lines 231-233).
Lines 240-243 send the heartbeat when
`current_time - last_heartbeat_time >= heartbeat_interval`, discard the
send result, and set `last_heartbeat_time = current_time`. -/
def cycle (cfg : Config) (st : LoopState) (inp : CycleInput) : CycleOutput :=
  let event := check_scheduled_events inp.poll
  let step :=
    match event with
    | none => (st.processedEvents, (none : Option (Option String)))
    | some e =>
      if e.eventId ∈ st.processedEvents then
        (st.processedEvents, none)
      else if send_webhook cfg.apiKey inp.eventSend then
        (e.eventId :: st.processedEvents, some e.eventId)
      else
        (st.processedEvents, some e.eventId)
  let heartbeatDue := decide (inp.currentTime - st.lastHeartbeatTime ≥ cfg.heartbeatInterval)
  { state :=
      { processedEvents := step.1
        consecutiveErrors := 0
        lastHeartbeatTime := if heartbeatDue then inp.currentTime else st.lastHeartbeatTime }
    eventSendAttempted := step.2
    heartbeatSent := heartbeatDue }

/-- Repeated iterations of the loop body on a list of per-cycle inputs,
collecting each iteration's output. -/
def runTrace (cfg : Config) : LoopState → List CycleInput → List CycleOutput
  | _, [] => []
  | st, inp :: rest =>
    let o := cycle cfg st inp
    o :: runTrace cfg o.state rest

/-- Line 37: `MAX_CONSECUTIVE_ERRORS = 10`. -/
def MAX_CONSECUTIVE_ERRORS : Nat := 10

/-- Lines 245-255, the `except` branch taken when an exception escapes
the loop body: increment `consecutive_errors`; if it now exceeds
`MAX_CONSECUTIVE_ERRORS`, sleep `min(300, check_interval * 2)` seconds
once and set the counter to `MAX_CONSECUTIVE_ERRORS // 2`. Returns the
new counter and the backoff sleep performed, if any. -/
def errorStep (checkInterval : Nat) (consecutiveErrors : Nat) : Nat × Option Nat :=
  let c := consecutiveErrors + 1
  if c > MAX_CONSECUTIVE_ERRORS then
    (MAX_CONSECUTIVE_ERRORS / 2, some (min 300 (checkInterval * 2)))
  else
    (c, none)

/-- Line 40: `DEFAULT_RESOURCE_GROUP = "test"`. -/
def DEFAULT_RESOURCE_GROUP : String := "test"

/-- Outcome of one GET against the instance metadata endpoint
(lines 47-51): a caught `RequestException`, or a JSON body from which
`compute.name` and `compute.resourceGroupName` are extracted, each
possibly absent. -/
inductive MetadataResponse
  | failure
  | ok (name : Option String) (resourceGroupName : Option String)
deriving DecidableEq, Repr

/-- Lines 45-67, `get_azure_metadata`: on a caught request failure
return `(None, None)`; otherwise, if either extracted field is falsy
(line 56) return `(None, None)`; otherwise return
`(resource_group, vm_name)` exactly as received. -/
def get_azure_metadata : MetadataResponse → Option String × Option String
  | .failure => (none, none)
  | .ok name rg =>
    if !(present name) || !(present rg) then (none, none)
    else (rg, name)

/-- Lines 173-178, the identity retry loop. The state is the pair
`(resource_group, vm_name)`; `fetch n` is the metadata response seen by
the call made while `retry_count = n` (the counter increments exactly
once per failed call, and a successful call exits the loop, so calls are
numbered by the counter). The `while` condition is
`(not resource_group or not vm_name) and retry_count < max_retries`; the
fuel argument is `max_retries - retry_count`, which the only looping
path strictly decreases, so the fuel recursion is exact, not an
approximation. The ~2s `time.sleep(2)` between attempts has no effect on
the computed values and is not modelled. Returns the final state and the
final `retry_count` (the number of failed calls). -/
def identityLoop (fetch : Nat → MetadataResponse) :
    Option String × Option String → Nat → Nat → (Option String × Option String) × Nat
  | st, retry, 0 => (st, retry)
  | st, retry, fuel + 1 =>
    if present st.1 && present st.2 then
      (st, retry)
    else
      let st2 := get_azure_metadata (fetch retry)
      if present st2.1 && present st2.2 then
        (st2, retry)
      else
        identityLoop fetch st2 (retry + 1) fuel

/-- Python falsy-default: `if not x: x = d` on an optional string. -/
def orDefault (v : Option String) (d : String) : String :=
  match v with
  | none => d
  | some s => if s = "" then d else s

/-- Lines 169-188: run the identity retry loop from `(None, None)` with
`retry_count = 0` and `max_retries = 5`, then apply the fallbacks of
lines 181-188: `vm_name := socket.gethostname()` and
`resource_group := DEFAULT_RESOURCE_GROUP` for whichever field is still
falsy. Returns `(resource_group, vm_name, failed attempts)`. -/
def resolveIdentity (fetch : Nat → MetadataResponse) (hostname : String) :
    String × String × Nat :=
  let r := identityLoop fetch (none, none) 0 5
  (orDefault r.1.1 DEFAULT_RESOURCE_GROUP, orDefault r.1.2 hostname, r.2)

/-- How far `main` gets past its startup validation: `sys.exit(code)` at
line 163, or entry into the monitoring section with the resolved
identity. -/
inductive StartupOutcome
  | exitCode (code : Nat)
  | enterLoop (resourceGroup : String) (vmName : String)
deriving DecidableEq, Repr

/-- Lines 154-158: `WEBHOOK_API_KEY` starts as the environment variable;
a truthy `--api-key` argument overrides it. -/
def effectiveApiKey (envKey argKey : Option String) : Option String :=
  if present argKey then argKey else envKey

/-- Lines 160-188 of `main`: if the effective API key is falsy, exit
with status 1 (line 163) — this test precedes the identity retry loop,
so the exit path never evaluates `fetch`; otherwise resolve the identity
and proceed into the monitoring section. -/
def startup (envKey argKey : Option String) (fetch : Nat → MetadataResponse)
    (hostname : String) : StartupOutcome :=
  if !(present (effectiveApiKey envKey argKey)) then
    StartupOutcome.exitCode 1
  else
    let r := resolveIdentity fetch hostname
    StartupOutcome.enterLoop r.1 r.2.1

/-- Selection as the spec words it for claim C2: the first event whose
type matches and whose id is not yet processed. This definition follows
the spec sentence, not the code; the code's selection is
`check_scheduled_events` (type filter only) followed by the dedup guard
at line 221. -/
def specSelect (processed : List (Option String)) (events : List ScheduledEvent) :
    Option ScheduledEvent :=
  (events.filter (fun e => isTerminationType e && !(processed.contains e.eventId))).head?

/-- Concrete termination-type event with id "a", for closed theorems. -/
def evA : ScheduledEvent := ⟨some "a", some "Preempt", none⟩

/-- Concrete termination-type event with id "b", for closed theorems. -/
def evB : ScheduledEvent := ⟨some "b", some "Terminate", none⟩

/-- Concrete termination-type event with no EventId field. -/
def evNoId : ScheduledEvent := ⟨none, some "Preempt", none⟩

/-- Concrete configuration: API key set, 5s poll, 300s heartbeat. -/
def cfgEx : Config := ⟨some "key", 5, 300⟩

/-- Fresh loop state: empty dedup set, no errors, heartbeat epoch 0. -/
def stEmpty : LoopState := ⟨[], 0, 0⟩

/-- Cycle input at time `t` whose poll yields exactly `[evA]` and whose
event webhook call has outcome `out`. -/
def inpA (t : Int) (out : HttpOutcome) : CycleInput :=
  ⟨t, .ok (some [evA]), out, .exn⟩

/-- Cycle input at time `t` whose poll yields exactly `[evNoId]`. -/
def inpNoId (t : Int) (out : HttpOutcome) : CycleInput :=
  ⟨t, .ok (some [evNoId]), out, .exn⟩

/-- The dedup set never shrinks: anything in `processed_events` before an
iteration is still there after it (the only mutation is `add`, line 233). -/
theorem processed_mono (cfg : Config) (st : LoopState) (inp : CycleInput)
    {id : Option String} (h : id ∈ st.processedEvents) :
    id ∈ (cycle cfg st inp).state.processedEvents := by
  unfold cycle
  cases check_scheduled_events inp.poll with
  | none => simpa using h
  | some e =>
    by_cases h1 : e.eventId ∈ st.processedEvents
    · simpa [h1] using h
    · cases h2 : send_webhook cfg.apiKey inp.eventSend
      · simpa [h1, h2] using h
      · simp [h1, h2, h]

/-- The guard at line 221 blocks the event webhook for any id already in
`processed_events`. -/
theorem no_attempt_of_processed (cfg : Config) (st : LoopState) (inp : CycleInput)
    {id : Option String} (h : id ∈ st.processedEvents) :
    (cycle cfg st inp).eventSendAttempted ≠ some id := by
  unfold cycle
  cases check_scheduled_events inp.poll with
  | none => simp
  | some e =>
    by_cases h1 : e.eventId ∈ st.processedEvents
    · simp [h1]
    · cases h2 : send_webhook cfg.apiKey inp.eventSend
      · simp only [h1, h2, Bool.false_eq_true, reduceIte, ne_eq, Option.some.injEq]
        rintro rfl
        exact h1 h
      · simp only [h1, h2, reduceIte, ne_eq, Option.some.injEq]
        rintro rfl
        exact h1 h

/-- Across any run of further iterations, an id already in the dedup set
never has the event webhook called for it again. -/
theorem trace_no_attempt (cfg : Config) {id : Option String} :
    ∀ (ins : List CycleInput) (st : LoopState), id ∈ st.processedEvents →
      ∀ o ∈ runTrace cfg st ins, o.eventSendAttempted ≠ some id := by
  intro ins
  induction ins with
  | nil => intro st _ o ho; simp [runTrace] at ho
  | cons inp rest ih =>
    intro st h o ho
    simp only [runTrace, List.mem_cons] at ho
    rcases ho with ho | ho
    · subst ho; exact no_attempt_of_processed cfg st inp h
    · exact ih _ (processed_mono cfg st inp h) o ho

/-- When the poll detects event `e`, its id is new, and the webhook call
returns `True`, the iteration calls the webhook for `e` and adds its id. -/
theorem cycle_success_step (cfg : Config) (st : LoopState) (inp : CycleInput)
    {e : ScheduledEvent}
    (hdet : check_scheduled_events inp.poll = some e)
    (hnew : e.eventId ∉ st.processedEvents)
    (hsucc : send_webhook cfg.apiKey inp.eventSend = true) :
    (cycle cfg st inp).state.processedEvents = e.eventId :: st.processedEvents ∧
    (cycle cfg st inp).eventSendAttempted = some e.eventId := by
  unfold cycle
  simp [hdet, hnew, hsucc]

/-- When the poll detects event `e`, its id is new, and the webhook call
returns `False`, the iteration calls the webhook for `e` but leaves the
dedup set unchanged. -/
theorem cycle_failure_step (cfg : Config) (st : LoopState) (inp : CycleInput)
    {e : ScheduledEvent}
    (hdet : check_scheduled_events inp.poll = some e)
    (hnew : e.eventId ∉ st.processedEvents)
    (hfail : send_webhook cfg.apiKey inp.eventSend = false) :
    (cycle cfg st inp).state.processedEvents = st.processedEvents ∧
    (cycle cfg st inp).eventSendAttempted = some e.eventId := by
  unfold cycle
  simp [hdet, hnew, hfail]

/-- C1: once the event webhook for a detected event returns success, its
eventId is added to the dedup set, and over any sequence of later cycle
inputs — including ones where events with that id keep reappearing — no
later iteration calls the event webhook for that id again. -/
theorem C1_eventId_notified_at_most_once (cfg : Config) (st : LoopState)
    (inp : CycleInput) (e : ScheduledEvent) (rest : List CycleInput)
    (hdet : check_scheduled_events inp.poll = some e)
    (hnew : e.eventId ∉ st.processedEvents)
    (hsucc : send_webhook cfg.apiKey inp.eventSend = true) :
    e.eventId ∈ (cycle cfg st inp).state.processedEvents ∧
    ∀ o ∈ runTrace cfg (cycle cfg st inp).state rest,
      o.eventSendAttempted ≠ some e.eventId := by
  have hstep := cycle_success_step cfg st inp hdet hnew hsucc
  have hmem : e.eventId ∈ (cycle cfg st inp).state.processedEvents := by
    rw [hstep.1]
    exact List.mem_cons_self _ _
  exact ⟨hmem, fun o ho => trace_no_attempt cfg rest _ hmem o ho⟩

/-- Witness for C1 at a concrete run: id "a" succeeds in the first
cycle, and a second cycle polling the same event attempts no send. -/
theorem C1_witness :
    evA.eventId ∈ (cycle cfgEx stEmpty (inpA 0 (.response 200 true))).state.processedEvents ∧
    ∀ o ∈ runTrace cfgEx (cycle cfgEx stEmpty (inpA 0 (.response 200 true))).state
        [inpA 5 (.response 200 true)],
      o.eventSendAttempted ≠ some evA.eventId :=
  C1_eventId_notified_at_most_once cfgEx stEmpty (inpA 0 (.response 200 true)) evA
    [inpA 5 (.response 200 true)] (by decide) (by decide) (by decide)

/-- C2 counterexample: with dedup set {"a"} and fetched list
[evA (Preempt, id "a"), evB (Terminate, id "b")], the selection the claim
describes picks evB, but the code's iteration — which filters by type
first and only then checks the dedup set on the single returned event —
calls the event webhook for nothing at all. -/
theorem C2_counterexample :
    specSelect [some "a"] [evA, evB] = some evB ∧
    (cycle cfgEx ⟨[some "a"], 0, 0⟩
        ⟨0, .ok (some [evA, evB]), .response 200 true, .response 200 true⟩).eventSendAttempted
      = none := by
  decide

/-- C2 (amended): the candidate event is the first termination-type
event of the fetched list, chosen without consulting the dedup set; it
is notified exactly when its id is not yet processed, and when that
first candidate is already processed the iteration notifies no event,
even if a later termination-type event with a new id is present. -/
theorem C2_first_match_then_dedup (cfg : Config) (st : LoopState) (inp : CycleInput)
    (events : List ScheduledEvent) (e : ScheduledEvent)
    (hpoll : inp.poll = PollResult.ok (some events))
    (hfirst : (events.filter isTerminationType).head? = some e) :
    (e.eventId ∉ st.processedEvents →
      (cycle cfg st inp).eventSendAttempted = some e.eventId) ∧
    (e.eventId ∈ st.processedEvents →
      (cycle cfg st inp).eventSendAttempted = none) := by
  have hdet : check_scheduled_events inp.poll = some e := by
    rw [hpoll]
    simpa [check_scheduled_events] using hfirst
  constructor
  · intro hnew
    cases hs : send_webhook cfg.apiKey inp.eventSend
    · exact (cycle_failure_step cfg st inp hdet hnew hs).2
    · exact (cycle_success_step cfg st inp hdet hnew hs).2
  · intro hmem
    unfold cycle
    simp [hdet, hmem]

/-- Witness for C2 (amended): with an empty dedup set and fetched list
[evA, evB], the first termination-type event evA is the one notified. -/
theorem C2_witness :
    (cycle cfgEx stEmpty
        ⟨0, .ok (some [evA, evB]), .response 200 true, .exn⟩).eventSendAttempted
      = some evA.eventId :=
  (C2_first_match_then_dedup cfgEx stEmpty
      ⟨0, .ok (some [evA, evB]), .response 200 true, .exn⟩
      [evA, evB] evA rfl (by decide)).1 (by decide)

/-- C3 counterexample: a cycle whose poll raises a request failure still
resets consecutive_errors to 0 (here from 3), because
check_scheduled_events catches the failure internally and line 219 runs
unconditionally; the claim predicts a contribution to the counter and no
reset. -/
theorem C3_counterexample :
    (⟨0, .failure, .exn, .exn⟩ : CycleInput).poll = PollResult.failure ∧
    (⟨[], 3, 0⟩ : LoopState).consecutiveErrors = 3 ∧
    (cycle cfgEx ⟨[], 3, 0⟩ ⟨0, .failure, .exn, .exn⟩).state.consecutiveErrors = 0 := by
  decide

/-- C3 (amended): a metadata poll failure is caught inside
check_scheduled_events and surfaces as "no event this cycle"; it does
not contribute to consecutive_errors — every iteration that completes
the loop body resets the counter to 0, poll failure included; only an
exception escaping the body (the errorStep branch) increments it. -/
theorem C3_poll_failure_resets_counter (cfg : Config) (st : LoopState)
    (inp : CycleInput) (hfail : inp.poll = PollResult.failure) :
    check_scheduled_events inp.poll = none ∧
    (cycle cfg st inp).state.consecutiveErrors = 0 := by
  constructor
  · rw [hfail]
    rfl
  · rfl

/-- Witness for C3 (amended) at a concrete failing poll. -/
theorem C3_witness :
    check_scheduled_events (⟨7, .failure, .exn, .exn⟩ : CycleInput).poll = none ∧
    (cycle cfgEx ⟨[some "a"], 4, 0⟩ ⟨7, .failure, .exn, .exn⟩).state.consecutiveErrors = 0 :=
  C3_poll_failure_resets_counter cfgEx ⟨[some "a"], 4, 0⟩ ⟨7, .failure, .exn, .exn⟩ rfl

/-- C4: across any run in which every poll detects event `e` (with an id
not yet processed at the start) and every event webhook call fails,
every iteration attempts the send for e's id and leaves the dedup set
unchanged — the event is never silently dropped. -/
theorem C4_failed_send_retried_every_poll (cfg : Config) (st : LoopState)
    (e : ScheduledEvent) (ins : List CycleInput)
    (hnew : e.eventId ∉ st.processedEvents)
    (hdet : ∀ i ∈ ins, check_scheduled_events i.poll = some e)
    (hfail : ∀ i ∈ ins, send_webhook cfg.apiKey i.eventSend = false) :
    ∀ o ∈ runTrace cfg st ins,
      o.eventSendAttempted = some e.eventId ∧
      o.state.processedEvents = st.processedEvents := by
  revert hnew hdet hfail
  induction ins generalizing st with
  | nil =>
    intro _ _ _ o ho
    simp [runTrace] at ho
  | cons inp rest ih =>
    intro hnew hdet hfail o ho
    have hstep := cycle_failure_step cfg st inp (hdet inp (by simp)) hnew (hfail inp (by simp))
    simp only [runTrace, List.mem_cons] at ho
    rcases ho with rfl | ho
    · exact ⟨hstep.2, hstep.1⟩
    · have hnew2 : e.eventId ∉ (cycle cfg st inp).state.processedEvents := by
        rw [hstep.1]
        exact hnew
      have hrec := ih (cycle cfg st inp).state hnew2
        (fun i hi => hdet i (List.mem_cons_of_mem _ hi))
        (fun i hi => hfail i (List.mem_cons_of_mem _ hi)) o ho
      exact ⟨hrec.1, by rw [hrec.2, hstep.1]⟩

/-- Witness for C4: in a two-cycle run that polls evA with a
network-failing webhook both times, the first cycle attempts the send
and does not mark the id. -/
theorem C4_witness :
    (cycle cfgEx stEmpty (inpA 0 .exn)).eventSendAttempted = some evA.eventId ∧
    (cycle cfgEx stEmpty (inpA 0 .exn)).state.processedEvents = stEmpty.processedEvents :=
  C4_failed_send_retried_every_poll cfgEx stEmpty evA [inpA 0 .exn, inpA 5 .exn]
    (by decide) (by decide) (by decide) (cycle cfgEx stEmpty (inpA 0 .exn)) (by decide)

/-- C5 counterexample: status 304 is not 2xx, not 401, not 400 — but it
is also outside the 400-599 range `raise_for_status` raises on, so the
code reaches its success return and the verdict is Success, not the
NetworkFailure the claim assigns to "any other non-2xx status". -/
theorem C5_counterexample :
    is2xx 304 = false ∧ (304 : Nat) ≠ 401 ∧ (304 : Nat) ≠ 400 ∧
    classifySend (HttpOutcome.response 304 true) = SendResult.Success := by
  decide

/-- C5 (amended): 401 yields AuthFailure, 400 yields BadRequest; a
network/timeout exception, or any status in 400-599 other than 400/401
(the range raise_for_status raises on), yields NetworkFailure; every
status outside 400-599 — all 2xx, but also 1xx/3xx and codes of 600 and
above, which raise_for_status lets through — yields Success; the
body-parse flag never affects the verdict. -/
theorem C5_send_classification (s : Nat) (p q : Bool) :
    classifySend HttpOutcome.exn = SendResult.NetworkFailure ∧
    classifySend (HttpOutcome.response 401 p) = SendResult.AuthFailure ∧
    classifySend (HttpOutcome.response 400 p) = SendResult.BadRequest ∧
    (400 ≤ s → s < 600 → s ≠ 401 → s ≠ 400 →
      classifySend (HttpOutcome.response s p) = SendResult.NetworkFailure) ∧
    ((s < 400 ∨ 600 ≤ s) →
      classifySend (HttpOutcome.response s p) = SendResult.Success) ∧
    (is2xx s = true → classifySend (HttpOutcome.response s p) = SendResult.Success) ∧
    classifySend (HttpOutcome.response s p) = classifySend (HttpOutcome.response s q) := by
  have hsucc : ∀ t : Nat, t < 400 ∨ 600 ≤ t →
      classifySend (HttpOutcome.response t p) = SendResult.Success := by
    intro t hout
    have hr : raisesForStatus t = false := by
      simp only [raisesForStatus, Bool.and_eq_false_iff, decide_eq_false_iff_not]
      omega
    have h3 : t ≠ 401 := by omega
    have h4 : t ≠ 400 := by omega
    simp [classifySend, h3, h4, hr]
  refine ⟨rfl, by simp [classifySend], by simp [classifySend], ?_, hsucc s, ?_, rfl⟩
  · intro h1 h2 h3 h4
    have hr : raisesForStatus s = true := by
      simp only [raisesForStatus, Bool.and_eq_true, decide_eq_true_eq]
      omega
    simp [classifySend, h3, h4, hr]
  · intro h2xx
    have hs : 200 ≤ s ∧ s < 300 := by
      simpa [is2xx] using h2xx
    exact hsucc s (Or.inl (by omega))

/-- Witness for C5 (amended) at statuses 500 (NetworkFailure), 304
(non-2xx outside 400-599, Success) and 200 (2xx, Success). -/
theorem C5_witness :
    classifySend (HttpOutcome.response 500 true) = SendResult.NetworkFailure ∧
    classifySend (HttpOutcome.response 304 true) = SendResult.Success ∧
    classifySend (HttpOutcome.response 200 false) = SendResult.Success :=
  ⟨(C5_send_classification 500 true false).2.2.2.1 (by decide) (by decide) (by decide) (by decide),
   (C5_send_classification 304 true false).2.2.2.2.1 (Or.inl (by decide)),
   (C5_send_classification 200 false true).2.2.2.2.2.1 (by decide)⟩

/-- C6: in any cycle where elapsed time since last_heartbeat_time is at
least the heartbeat interval, the heartbeat webhook call is made and
last_heartbeat_time is advanced to the cycle's current time; the whole
iteration result is independent of the heartbeat call's outcome (a
failed heartbeat is never retried), and the statement holds for every
poll result and event-send outcome, so event activity is irrelevant. -/
theorem C6_heartbeat_fires (cfg : Config) (st : LoopState) (inp : CycleInput)
    (helapsed : inp.currentTime - st.lastHeartbeatTime ≥ cfg.heartbeatInterval) :
    (cycle cfg st inp).heartbeatSent = true ∧
    (cycle cfg st inp).state.lastHeartbeatTime = inp.currentTime ∧
    ∀ o : HttpOutcome,
      cycle cfg st { inp with heartbeatSend := o } = cycle cfg st inp := by
  have hdue : decide (inp.currentTime - st.lastHeartbeatTime ≥ cfg.heartbeatInterval) = true := by
    simpa using helapsed
  refine ⟨?_, ?_, fun o => rfl⟩
  · exact hdue
  · show (if (decide (inp.currentTime - st.lastHeartbeatTime ≥ cfg.heartbeatInterval)) = true
        then inp.currentTime else st.lastHeartbeatTime) = inp.currentTime
    rw [hdue]
    rfl

/-- Witness for C6: at time 300 with heartbeat epoch 0 and interval 300,
the heartbeat fires even though the poll failed. -/
theorem C6_witness :
    (cycle cfgEx ⟨[], 0, 0⟩ ⟨300, .failure, .exn, .exn⟩).heartbeatSent = true ∧
    (cycle cfgEx ⟨[], 0, 0⟩ ⟨300, .failure, .exn, .exn⟩).state.lastHeartbeatTime = 300 ∧
    ∀ o : HttpOutcome,
      cycle cfgEx ⟨[], 0, 0⟩ { (⟨300, .failure, .exn, .exn⟩ : CycleInput) with heartbeatSend := o }
        = cycle cfgEx ⟨[], 0, 0⟩ ⟨300, .failure, .exn, .exn⟩ :=
  C6_heartbeat_fires cfgEx ⟨[], 0, 0⟩ ⟨300, .failure, .exn, .exn⟩ (by decide)

/-- C7: whenever the error counter exceeds MAX_CONSECUTIVE_ERRORS = 10
after the except-branch increment, the branch performs one backoff sleep
of min(300, 2 * check_interval) seconds and sets the counter to
MAX_CONSECUTIVE_ERRORS / 2 = 5, not zero. -/
theorem C7_backoff_halves_counter (ci c : Nat)
    (h : c + 1 > MAX_CONSECUTIVE_ERRORS) :
    errorStep ci c = (5, some (min 300 (ci * 2))) ∧ (5 : Nat) ≠ 0 := by
  refine ⟨?_, by decide⟩
  simp only [errorStep]
  rw [if_pos h]
  rfl

/-- Witness for C7 with counter 10 and poll interval 5: one backoff
sleep of min(300, 10) = 10 seconds and counter 5. -/
theorem C7_witness :
    errorStep 5 10 = (5, some (min 300 (5 * 2))) ∧ (5 : Nat) ≠ 0 :=
  C7_backoff_halves_counter 5 10 (by decide)

/-- With every fetch absent, the identity retry loop consumes all its
fuel, one failed attempt per unit, ending with both fields still absent
and the retry counter advanced by the fuel. -/
theorem identityLoop_absent (fetch : Nat → MetadataResponse)
    (habsent : ∀ n, get_azure_metadata (fetch n) = (none, none)) :
    ∀ (fuel retry : Nat),
      identityLoop fetch (none, none) retry fuel = ((none, none), retry + fuel) := by
  intro fuel
  induction fuel with
  | zero => intro retry; rfl
  | succ n ih =>
    intro retry
    rw [identityLoop]
    simp only [present, Bool.false_and, Bool.false_eq_true, if_false, habsent retry]
    rw [ih (retry + 1)]
    congr 1
    omega

/-- C8: if every identity fetch comes back absent, the retry loop makes
exactly 5 failed attempts and then proceeds with resource_group set to
DEFAULT_RESOURCE_GROUP and vm_name set to the local hostname; the loop
is a total function of its inputs, so resolution always terminates. -/
theorem C8_identity_fallback (fetch : Nat → MetadataResponse) (host : String)
    (habsent : ∀ n, get_azure_metadata (fetch n) = (none, none)) :
    resolveIdentity fetch host = (DEFAULT_RESOURCE_GROUP, host, 5) := by
  unfold resolveIdentity
  rw [identityLoop_absent fetch habsent 5 0]
  rfl

/-- Witness for C8: a metadata service that always fails. -/
theorem C8_witness :
    resolveIdentity (fun _ => MetadataResponse.failure) "vmhost"
      = (DEFAULT_RESOURCE_GROUP, "vmhost", 5) :=
  C8_identity_fallback (fun _ => MetadataResponse.failure) "vmhost" (fun _ => rfl)

/-- C9: with no truthy API key from either the environment or the
command line, startup exits with code 1 — for every metadata oracle
alike, so neither identity resolution nor any polling has run; with a
truthy key present, startup proceeds into the monitoring loop with the
resolved identity. -/
theorem C9_api_key_gate (envKey argKey : Option String)
    (fetch : Nat → MetadataResponse) (host : String) :
    (present (effectiveApiKey envKey argKey) = false →
      startup envKey argKey fetch host = StartupOutcome.exitCode 1 ∧ (1 : Nat) ≠ 0) ∧
    (present (effectiveApiKey envKey argKey) = true →
      startup envKey argKey fetch host
        = StartupOutcome.enterLoop (resolveIdentity fetch host).1
            (resolveIdentity fetch host).2.1) := by
  constructor
  · intro h
    refine ⟨?_, by decide⟩
    unfold startup
    rw [h]
    rfl
  · intro h
    unfold startup
    rw [h]
    rfl

/-- Witness for C9: both paths at concrete keys. -/
theorem C9_witness :
    (startup none none (fun _ => MetadataResponse.failure) "host1"
        = StartupOutcome.exitCode 1 ∧ (1 : Nat) ≠ 0) ∧
    startup (some "k") none (fun _ => MetadataResponse.ok (some "vm") (some "rg")) "host1"
      = StartupOutcome.enterLoop
          (resolveIdentity (fun _ => MetadataResponse.ok (some "vm") (some "rg")) "host1").1
          (resolveIdentity (fun _ => MetadataResponse.ok (some "vm") (some "rg")) "host1").2.1 :=
  ⟨(C9_api_key_gate none none (fun _ => MetadataResponse.failure) "host1").1 (by decide),
   (C9_api_key_gate (some "k") none
      (fun _ => MetadataResponse.ok (some "vm") (some "rg")) "host1").2 (by decide)⟩

/-- C10: dedup keys on the raw EventId field: a selected event lacking
an EventId is deduplicated under the absent value, so after one
successful notification for an id-less event the absent id sits in the
dedup set and no later iteration of any run calls the event webhook for
an id-less event again. -/
theorem C10_absent_id_dedup (cfg : Config) (st : LoopState) (inp : CycleInput)
    (e : ScheduledEvent) (rest : List CycleInput)
    (hdet : check_scheduled_events inp.poll = some e)
    (hid : e.eventId = none)
    (hnew : (none : Option String) ∉ st.processedEvents)
    (hsucc : send_webhook cfg.apiKey inp.eventSend = true) :
    (none : Option String) ∈ (cycle cfg st inp).state.processedEvents ∧
    ∀ o ∈ runTrace cfg (cycle cfg st inp).state rest,
      o.eventSendAttempted ≠ some (none : Option String) := by
  have hnew2 : e.eventId ∉ st.processedEvents := by
    rw [hid]
    exact hnew
  have hstep := cycle_success_step cfg st inp hdet hnew2 hsucc
  have hmem : (none : Option String) ∈ (cycle cfg st inp).state.processedEvents := by
    rw [hstep.1, hid]
    exact List.mem_cons_self _ _
  exact ⟨hmem, fun o ho => trace_no_attempt cfg rest _ hmem o ho⟩

/-- Witness for C10: an id-less Preempt event succeeds in the first
cycle; a second cycle polling another id-less event attempts no send. -/
theorem C10_witness :
    (none : Option String) ∈
      (cycle cfgEx stEmpty (inpNoId 0 (.response 200 true))).state.processedEvents ∧
    ∀ o ∈ runTrace cfgEx (cycle cfgEx stEmpty (inpNoId 0 (.response 200 true))).state
        [inpNoId 5 (.response 200 true)],
      o.eventSendAttempted ≠ some (none : Option String) :=
  C10_absent_id_dedup cfgEx stEmpty (inpNoId 0 (.response 200 true)) evNoId
    [inpNoId 5 (.response 200 true)] (by decide) (by decide) (by decide) (by decide)

end SpotMonitor
